import Mathlib

/-!
Shallow embedding of the rust-actuator repository (src/actuator/src/lib.rs and
src/actuator/src/env.rs) for checking the natural-language specification.

Modelling conventions:
* `SystemTime` is a `Nat`: nanoseconds since `UNIX_EPOCH` (which is `0`).
* `Duration` is a `Nat` in nanoseconds; `Duration::MAX` is `durationMax`.
* `SystemTime::duration_since` returns `Option Nat`: `none` models the `Err`
  returned when the argument is later than `self`.
* A Rust panic is modelled as `none` in an `Option` result; code that cannot
  panic is total.
* The `HashMap<String, HealthInfo>` is an association list with last-wins
  insertion (`hmInsert`), which matches `HashMap::collect` content-wise; the
  only map consumers in the source (`values()` plus the returned snapshot)
  are order-insensitive.
* A probe callable `fn() -> Pin<Box<dyn Future<...>>>` is represented by the
  outcome its future resolves to during the run under consideration, supplied
  as a function `HealthChecker → ProbeOutcome` (one resolved value per
  checker, per call).
* `env::var` is modelled by `Env := String → Option String`, with `none`
  standing for `VarError`.
-/

namespace RustActuator

/-- Rust std `Duration::MAX` expressed in nanoseconds:
`u64::MAX` seconds plus `999_999_999` nanoseconds. -/
def durationMax : Nat := 18446744073709551615 * 1000000000 + 999999999

/-- `struct ActuatorError { details: String }` (lib.rs lines 16-19). -/
structure ActuatorError where
  details : String
deriving DecidableEq

/-- The type a probe future resolves to: `Result<(), ActuatorError>`. -/
abbrev ProbeOutcome := Except ActuatorError Unit

/-- Rust `Result::is_ok`. -/
def resultIsOk : ProbeOutcome → Bool
  | .ok _ => true
  | .error _ => false

/-- Rust `Result::err`. -/
def resultErr : ProbeOutcome → Option ActuatorError
  | .ok _ => none
  | .error e => some e

/-- `pub enum Endpoint` (lib.rs lines 21-30). -/
inductive Endpoint where
  | ping
  | infoE
  | healthE
  | envE
  | metrics
  | shutdownE
  | threadDump
deriving DecidableEq

/-- `struct HealthChecker` (lib.rs lines 34-39); the `func` field is a fn
pointer and is represented per run by a `HealthChecker → ProbeOutcome` map. -/
structure HealthChecker where
  key : String
  is_mandatory : Bool
deriving DecidableEq

/-- `struct HealthConfig` (lib.rs lines 41-46). -/
structure HealthConfig where
  cache_duration : Nat
  timeout : Nat
  checkers : List HealthChecker
deriving DecidableEq

/-- `struct Config` (lib.rs lines 48-56). -/
structure Config where
  endpoints : List Endpoint
  env : String
  name : String
  port : Nat
  version : String
  health : HealthConfig
deriving DecidableEq

/-- `struct HealthInfo` (lib.rs lines 90-96). -/
structure HealthInfo where
  key : String
  is_mandatory : Bool
  success : Bool
  error : String
deriving DecidableEq

/-- `struct Health` (lib.rs lines 98-102); the `HashMap` is an assoc list. -/
structure Health where
  last_check_stamp : Nat
  data : List (String × HealthInfo)
deriving DecidableEq

/-- `struct InnerHealth` (lib.rs lines 104-108): the health config together
with the `Arc<RwLock<Health>>` cell's current contents. -/
structure InnerHealth where
  cfg : HealthConfig
  health : Health
deriving DecidableEq

/-- The process environment, backing `std::env::var`:
`none` models `VarError` (unset variable). -/
abbrev Env := String → Option String

/-- `env::var(key)` on the modelled environment. -/
def envVar (e : Env) (key : String) : Option String := e key

/-- `env.rs` line 5: `build_stamp`. -/
def build_stamp (e : Env) : String :=
  (envVar e "VERGEN_BUILD_TIMESTAMP").getD ""

/-- `env.rs` line 10: `git_commit_stamp`. -/
def git_commit_stamp (e : Env) : String :=
  (envVar e "VERGEN_GIT_COMMIT_TIMESTAMP").getD ""

/-- `env.rs` line 14: `git_commit_id`. -/
def git_commit_id (e : Env) : String :=
  (envVar e "VERGEN_GIT_SHA").getD ""

/-- `env.rs` line 18: `git_branch`. -/
def git_branch (e : Env) : String :=
  (envVar e "VERGEN_GIT_BRANCH").getD ""

/-- `env.rs` line 22: `rustc_version`. -/
def rustc_version (e : Env) : String :=
  (envVar e "VERGEN_RUSTC_SEMVER").getD ""

/-- `env.rs` line 26: `cargo_profile`. -/
def cargo_profile (e : Env) : String :=
  (envVar e "VERGEN_CARGO_PROFILE").getD ""

/-- `env.rs` line 30: `os`. -/
def os (e : Env) : String :=
  (envVar e "VERGEN_SYSINFO_OS_VERSION").getD ""

/-- `env.rs` line 34: `cpu`. -/
def cpu (e : Env) : String :=
  (envVar e "VERGEN_SYSINFO_CPU_BRAND").getD ""

/-- `struct ApplicationInfo` (lib.rs lines 58-64). -/
structure ApplicationInfo where
  name : String
  env : String
  version : String
  startup_stamp : Nat

/-- `struct GITInfo` (lib.rs lines 66-72). -/
structure GITInfo where
  build_stamp : String
  commit_id : String
  commit_stamp : String
  primary_branch : String

/-- `struct RuntimeInfo` (lib.rs lines 74-81). -/
structure RuntimeInfo where
  arch : String
  os : String
  port : Nat
  version : String
  cargo_version : String

/-- `struct Info` (lib.rs lines 83-88). -/
structure Info where
  application : ApplicationInfo
  git : GITInfo
  runtime : RuntimeInfo

/-- `Info::new` (lib.rs lines 149-173); `SystemTime::now()` is the `now`
parameter and the process environment is the `e` parameter. -/
def Info.new (now : Nat) (e : Env) (cfg : Config) : Info :=
  { application :=
      { name := cfg.name
        env := cfg.env
        version := cfg.version
        startup_stamp := now }
    git :=
      { build_stamp := build_stamp e
        commit_id := git_commit_id e
        commit_stamp := git_commit_stamp e
        primary_branch := git_branch e }
    runtime :=
      { arch := cpu e
        os := os e
        port := cfg.port
        version := rustc_version e
        cargo_version := cargo_profile e } }

/-- `InnerHealth::new` (lib.rs lines 176-184): health config taken from the
`Config`, cache cell set to `UNIX_EPOCH` (0) and an empty map. -/
def InnerHealth.new (cfg : Config) : InnerHealth :=
  { cfg := cfg.health
    health := { last_check_stamp := 0, data := [] } }

/-- `SystemTime::duration_since`: `Err` (here `none`) when `earlier` is
later than `now`. -/
def duration_since (now earlier : Nat) : Option Nat :=
  if earlier ≤ now then some (now - earlier) else none

/-- `.unwrap_or_else(|_| Duration::MAX)` applied to a `duration_since`
result (lib.rs line 189). -/
def unwrapOrDurationMax : Option Nat → Nat
  | some d => d
  | none => durationMax

/-- `InnerHealth::get_from_cache` (lib.rs lines 186-194): serves the stored
map iff the elapsed time since `last_check_stamp` (with clock errors mapped
to `Duration::MAX`) is at most `cache_duration`. -/
def InnerHealth.get_from_cache (now : Nat) (s : InnerHealth) :
    Option (List (String × HealthInfo)) :=
  if unwrapOrDurationMax (duration_since now s.health.last_check_stamp) ≤
      s.cfg.cache_duration then
    some s.health.data
  else
    none

/-- One task pushed in the loop of `get_health_and_cache_if_success`
(lib.rs lines 202-210): awaits the probe outcome and builds a `HealthInfo`
whose `error` field is `result.err().unwrap().details`. When the probe
succeeded, `err()` is `None` and `unwrap()` panics: modelled as `none`. -/
def probeTask (key : String) (is_mandatory : Bool) (result : ProbeOutcome) :
    Option HealthInfo :=
  match resultErr result with
  | some e =>
      some { key := key
             is_mandatory := is_mandatory
             success := resultIsOk result
             error := e.details }
  | none => none

/-- `join_all(tasks).await` (lib.rs line 212): collects every task's
`HealthInfo`; a panic in any task unwinds the whole call (`none`). -/
def joinAllTasks : List (Option HealthInfo) → Option (List HealthInfo)
  | [] => some []
  | none :: _ => none
  | some info :: rest => (joinAllTasks rest).map fun tail => info :: tail

/-- `HashMap` insertion with the replace-on-existing-key semantics of
`HashMap::collect` / `HashMap::insert`. -/
def hmInsert (m : List (String × HealthInfo)) (k : String) (v : HealthInfo) :
    List (String × HealthInfo) :=
  if m.any fun p => p.1 == k then
    m.map fun p => if p.1 == k then (k, v) else p
  else
    m ++ [(k, v)]

/-- `HashMap::values`. -/
def hmValues (m : List (String × HealthInfo)) : List HealthInfo :=
  m.map Prod.snd

/-- `InnerHealth::get_health_and_cache_if_success` (lib.rs lines 196-221):
spawns one task per checker, joins them, collects
`(info.key, info)` pairs into a map, and computes `ok` as
`values().filter(is_mandatory).all(success)`. Despite its name it performs
no write to the `RwLock<Health>` cell: the source never acquires the write
lock, so the caller's cached state is left untouched. -/
def get_health_and_cache_if_success (cfg : HealthConfig)
    (outcomes : HealthChecker → ProbeOutcome) :
    Option (List (String × HealthInfo) × Bool) :=
  (joinAllTasks (cfg.checkers.map fun c =>
      probeTask c.key c.is_mandatory (outcomes c))).map fun results =>
    let new_data := results.foldl (fun m info => hmInsert m info.key info) []
    let ok := ((hmValues new_data).filter fun info => info.is_mandatory).all
      fun info => info.success
    (new_data, ok)

/-- `InnerHealth::get` (lib.rs lines 223-228): cache hit returns the cached
map paired with the constant `true`; a miss delegates to
`get_health_and_cache_if_success`. The state `s` is unchanged by the call
(no write occurs anywhere on this path). -/
def InnerHealth.get (now : Nat) (s : InnerHealth)
    (outcomes : HealthChecker → ProbeOutcome) :
    Option (List (String × HealthInfo) × Bool) :=
  match InnerHealth.get_from_cache now s with
  | some health => some (health, true)
  | none => get_health_and_cache_if_success s.cfg outcomes

/-- The data of `struct Actuator` / `struct Inner` (lib.rs lines 122-131);
`envs` is the captured process environment. -/
structure Actuator where
  cfg : Config
  health : InnerHealth
  info : Info
  envs : Env

/-- `Actuator::new` (lib.rs lines 232-239); `now` stands for
`SystemTime::now()` and `e` for the process environment read by
`Info::new` and `envs()`. It performs no validation of any kind. -/
def Actuator.new (now : Nat) (e : Env) (cfg : Config) : Actuator :=
  { cfg := cfg
    health := InnerHealth.new cfg
    info := Info.new now e cfg
    envs := e }

end RustActuator

namespace RustActuator

theorem joinAllTasks_mem (l : List (Option HealthInfo)) (r : List HealthInfo)
    (h : joinAllTasks l = some r) : ∀ x ∈ r, some x ∈ l := by
  induction l generalizing r with
  | nil =>
    intro x hx
    simp only [joinAllTasks, Option.some.injEq] at h
    subst h
    simp at hx
  | cons hd tl ih =>
    intro x hx
    cases hd with
    | none => simp [joinAllTasks] at h
    | some y =>
      simp only [joinAllTasks] at h
      rcases Option.map_eq_some'.mp h with ⟨t, ht, hrt⟩
      subst hrt
      rcases List.mem_cons.mp hx with rfl | hxt
      · exact List.mem_cons_self _ _
      · exact List.mem_cons_of_mem _ (ih t ht x hxt)

theorem hmInsert_values_mem (m : List (String × HealthInfo)) (k : String)
    (v x : HealthInfo) (hx : x ∈ hmValues (hmInsert m k v)) :
    x ∈ hmValues m ∨ x = v := by
  unfold hmInsert at hx
  by_cases hc : (m.any fun p => p.1 == k) = true
  · rw [if_pos hc] at hx
    simp only [hmValues, List.mem_map] at hx ⊢
    rcases hx with ⟨q, hq, hqx⟩
    rcases hq with ⟨p, hp, hfp⟩
    by_cases hk : (p.1 == k) = true
    · rw [if_pos hk] at hfp
      subst hfp
      exact Or.inr hqx.symm
    · rw [if_neg hk] at hfp
      subst hfp
      exact Or.inl ⟨p, hp, hqx⟩
  · rw [if_neg hc] at hx
    simp only [hmValues, List.map_append, List.mem_append] at hx
    rcases hx with h | h
    · exact Or.inl h
    · simp at h
      exact Or.inr h

theorem foldl_hmInsert_values_mem (l : List HealthInfo) :
    ∀ (m : List (String × HealthInfo)) (x : HealthInfo),
      x ∈ hmValues (l.foldl (fun m info => hmInsert m info.key info) m) →
      x ∈ hmValues m ∨ x ∈ l := by
  induction l with
  | nil =>
    intro m x hx
    exact Or.inl hx
  | cons hd tl ih =>
    intro m x hx
    rw [List.foldl_cons] at hx
    rcases ih (hmInsert m hd.key hd) x hx with h | h
    · rcases hmInsert_values_mem m hd.key hd x h with h2 | h2
      · exact Or.inl h2
      · exact Or.inr (h2 ▸ List.mem_cons_self _ _)
    · exact Or.inr (List.mem_cons_of_mem _ h)

theorem run_some_inversion (cfg : HealthConfig)
    (outcomes : HealthChecker → ProbeOutcome)
    (data : List (String × HealthInfo)) (ok : Bool)
    (h : get_health_and_cache_if_success cfg outcomes = some (data, ok)) :
    ∃ results : List HealthInfo,
      joinAllTasks (cfg.checkers.map fun c =>
        probeTask c.key c.is_mandatory (outcomes c)) = some results ∧
      data = results.foldl (fun m info => hmInsert m info.key info) [] ∧
      ok = ((hmValues data).filter fun info => info.is_mandatory).all
        fun info => info.success := by
  unfold get_health_and_cache_if_success at h
  rcases Option.map_eq_some'.mp h with ⟨results, hres, hpair⟩
  simp only [Prod.mk.injEq] at hpair
  obtain ⟨hd, ho⟩ := hpair
  exact ⟨results, hres, hd.symm, by rw [← ho, hd]⟩

theorem run_entry_from_checker (cfg : HealthConfig)
    (outcomes : HealthChecker → ProbeOutcome)
    (data : List (String × HealthInfo)) (ok : Bool)
    (h : get_health_and_cache_if_success cfg outcomes = some (data, ok)) :
    ∀ info ∈ hmValues data, info.success = false ∧
      ∃ c ∈ cfg.checkers, info.key = c.key ∧
        info.is_mandatory = c.is_mandatory ∧
        outcomes c = Except.error ⟨info.error⟩ := by
  intro info hinfo
  rcases run_some_inversion cfg outcomes data ok h with ⟨results, hres, hdata, _⟩
  subst hdata
  rcases foldl_hmInsert_values_mem results [] info hinfo with h0 | hmem
  · simp [hmValues] at h0
  have htask : some info ∈ cfg.checkers.map fun c =>
      probeTask c.key c.is_mandatory (outcomes c) :=
    joinAllTasks_mem _ _ hres info hmem
  rcases List.mem_map.mp htask with ⟨c, hc, hpt⟩
  cases hout : outcomes c with
  | ok u =>
    rw [hout] at hpt
    simp [probeTask, resultErr] at hpt
  | error err =>
    rw [hout] at hpt
    simp only [probeTask, resultErr, resultIsOk, Option.some.injEq] at hpt
    subst hpt
    exact ⟨rfl, c, hc, rfl, rfl, by rw [hout]⟩

theorem run_ok_iff (cfg : HealthConfig)
    (outcomes : HealthChecker → ProbeOutcome)
    (data : List (String × HealthInfo)) (ok : Bool)
    (h : get_health_and_cache_if_success cfg outcomes = some (data, ok)) :
    (ok = true ↔ ∀ info ∈ hmValues data,
      info.is_mandatory = true → info.success = true) := by
  rcases run_some_inversion cfg outcomes data ok h with ⟨results, _, _, ho⟩
  rw [ho, List.all_eq_true]
  constructor
  · intro h' info hmem hmand
    exact h' info (List.mem_filter.mpr ⟨hmem, hmand⟩)
  · intro h' info hmem
    rcases List.mem_filter.mp hmem with ⟨hv, hm⟩
    exact h' info hv hm

end RustActuator

namespace RustActuator

def configC1 : Config :=
  { endpoints := [], env := "dev", name := "app", port := 8080, version := "1.0",
    health := { cache_duration := 1000, timeout := 50, checkers := [⟨"db", true⟩] } }

/-- C1: refuted as stated by the source; this theorem evaluates the code at the
failing input. A probe whose future resolves to `Ok(())` makes
`get_health_and_cache_if_success` evaluate `result.err().unwrap()` on `None`,
which panics, so `InnerHealth::get` (and hence `Actuator::health`) aborts
instead of returning a snapshot: the call yields `none` in the embedding. -/
theorem c1_panics_when_probe_succeeds :
    InnerHealth.get 5000 (InnerHealth.new configC1) (fun _ => Except.ok ()) =
      none := by decide

def cfgC2 : HealthConfig :=
  { cache_duration := 1000, timeout := 50, checkers := [⟨"db", true⟩] }

/-- C2: refuted as stated by the source. `get_health_and_cache_if_success`
never acquires the write lock, so the cache cell keeps its initial state
`⟨0, []⟩` after the first miss at t0 = 5000. A second call at
t0 + D - 1 = 5999 (D = 1000) therefore misses again and re-invokes the probe:
with call-dependent probe outcomes the two snapshots differ, which is
impossible if the first result had been published and served from cache. -/
theorem c2_snapshot_never_published :
    InnerHealth.get 5000 ⟨cfgC2, ⟨0, []⟩⟩ (fun _ => Except.error ⟨"down a"⟩) =
      some ([("db", ⟨"db", true, false, "down a"⟩)], false) ∧
    InnerHealth.get 5999 ⟨cfgC2, ⟨0, []⟩⟩ (fun _ => Except.error ⟨"down b"⟩) =
      some ([("db", ⟨"db", true, false, "down b"⟩)], false) ∧
    ([("db", (⟨"db", true, false, "down a"⟩ : HealthInfo))] ≠
      [("db", (⟨"db", true, false, "down b"⟩ : HealthInfo))]) :=
  ⟨by decide, by decide, by decide⟩

def cfgAllOptional : HealthConfig :=
  { cache_duration := 1000, timeout := 50, checkers := [⟨"cache", false⟩] }

/-- C3: the verdict formula holds for every snapshot the run actually
produces (overall is true iff every mandatory result succeeded, vacuously
true with no mandatory probe), but the claim's "always yields overall == true
regardless of individual probe outcomes" for all-optional configurations
fails on the code: a succeeding optional probe panics the run
(`err().unwrap()` on `None`) and no snapshot is yielded at all. -/
theorem c3_overall_is_mandatory_and :
    (get_health_and_cache_if_success cfgAllOptional (fun _ => Except.ok ()) =
      none) ∧
    (∀ (cfg : HealthConfig) (outcomes : HealthChecker → ProbeOutcome)
        (data : List (String × HealthInfo)) (ok : Bool),
      get_health_and_cache_if_success cfg outcomes = some (data, ok) →
      ((ok = true ↔ ∀ info ∈ hmValues data,
          info.is_mandatory = true → info.success = true) ∧
       ((∀ c ∈ cfg.checkers, c.is_mandatory = false) → ok = true))) := by
  refine ⟨by decide, fun cfg outcomes data ok h => ⟨run_ok_iff cfg outcomes data ok h, ?_⟩⟩
  intro hopt
  rw [run_ok_iff cfg outcomes data ok h]
  intro info hinfo hmand
  rcases run_entry_from_checker cfg outcomes data ok h info hinfo with
    ⟨_, c, hc, _, hm, _⟩
  rw [hm, hopt c hc] at hmand
  cases hmand

def outConnRefused : HealthChecker → ProbeOutcome :=
  fun _ => Except.error ⟨"conn refused"⟩

def dataW3 : List (String × HealthInfo) :=
  [("cache", ⟨"cache", false, false, "conn refused"⟩)]

/-- Witness for C3: one concrete all-optional run that produces a snapshot,
with the theorem's hypothesis discharged at that input. -/
theorem c3_overall_is_mandatory_and_witness :
    (get_health_and_cache_if_success cfgAllOptional outConnRefused =
      some (dataW3, true)) ∧
    ((true = true ↔ ∀ info ∈ hmValues dataW3,
        info.is_mandatory = true → info.success = true) ∧
     ((∀ c ∈ cfgAllOptional.checkers, c.is_mandatory = false) → true = true)) :=
  ⟨by decide,
   c3_overall_is_mandatory_and.2 cfgAllOptional outConnRefused dataW3 true (by decide)⟩

def cfgC4 : HealthConfig :=
  { cache_duration := 1000, timeout := 50, checkers := [⟨"db", true⟩] }

/-- C4: refuted as stated by the source; this theorem evaluates the code at
the failing input. The aggregation never reads `cfg.timeout`: its result is
unchanged under any replacement of the timeout value, and a probe that
completes long after the 50ms timeout with its own error is recorded with
that error verbatim; no synthesized timeout message exists in the code. -/
theorem c4_probe_timeout_unused :
    (∀ (cfg : HealthConfig) (t : Nat) (outcomes : HealthChecker → ProbeOutcome),
      get_health_and_cache_if_success { cfg with timeout := t } outcomes =
        get_health_and_cache_if_success cfg outcomes) ∧
    (get_health_and_cache_if_success cfgC4
        (fun _ => Except.error ⟨"slow dependency"⟩) =
      some ([("db", ⟨"db", true, false, "slow dependency"⟩)], false)) :=
  ⟨fun _ _ _ => rfl, by decide⟩

def cfgC5 : HealthConfig :=
  { cache_duration := 1000, timeout := 50, checkers := [⟨"db", true⟩] }

def dataC5 : List (String × HealthInfo) := [("db", ⟨"db", true, false, ""⟩)]

/-- C5 counterexample: a probe that fails with an empty message is recorded
with `error = ""` while `success = false`, so "error is empty iff success is
true" is false on the code at this concrete input. -/
theorem c5_empty_error_without_success :
    (get_health_and_cache_if_success cfgC5 (fun _ => Except.error ⟨""⟩) =
      some (dataC5, false)) ∧
    ¬(((⟨"db", true, false, ""⟩ : HealthInfo).error = "") ↔
      ((⟨"db", true, false, ""⟩ : HealthInfo).success = true)) :=
  ⟨by decide, by decide⟩

/-- C5 amended: in every `HealthInfo` produced by an aggregation run,
`success` is false and the `error` field carries the probe's failure message
verbatim (possibly empty); a successful probe never produces a result because
the construction panics on it. -/
theorem c5_error_propagated_verbatim (cfg : HealthConfig)
    (outcomes : HealthChecker → ProbeOutcome)
    (data : List (String × HealthInfo)) (ok : Bool)
    (h : get_health_and_cache_if_success cfg outcomes = some (data, ok)) :
    ∀ info ∈ hmValues data, info.success = false ∧
      ∃ c ∈ cfg.checkers, info.key = c.key ∧
        info.is_mandatory = c.is_mandatory ∧
        outcomes c = Except.error ⟨info.error⟩ :=
  run_entry_from_checker cfg outcomes data ok h

def infoW5 : HealthInfo := ⟨"db", true, false, "conn refused"⟩

/-- Witness for C5's amended theorem at a concrete input. -/
theorem c5_error_propagated_verbatim_witness :
    (get_health_and_cache_if_success cfgC5 outConnRefused =
      some ([("db", infoW5)], false)) ∧
    (infoW5.success = false ∧
      ∃ c ∈ cfgC5.checkers, infoW5.key = c.key ∧
        infoW5.is_mandatory = c.is_mandatory ∧
        outConnRefused c = Except.error ⟨infoW5.error⟩) :=
  ⟨by decide,
   c5_error_propagated_verbatim cfgC5 outConnRefused [("db", infoW5)] false
     (by decide) infoW5 (by decide)⟩

def cfgC6 : HealthConfig :=
  { cache_duration := 1000, timeout := 50,
    checkers := [⟨"db", true⟩, ⟨"cache", false⟩] }

def outC6a : HealthChecker → ProbeOutcome := fun c =>
  if c.key == "db" then Except.error ⟨"down"⟩ else Except.error ⟨"conn refused"⟩

def outC6b : HealthChecker → ProbeOutcome := fun c =>
  if c.key == "db" then Except.ok () else Except.error ⟨"conn refused"⟩

/-- C6: refuted as stated by the source; this theorem evaluates the code at
the failing input. Because nothing is ever published to the cache, the state
is still `⟨0, []⟩` at the second call 500ms after the first (TTL 1000ms), so
the probes are re-invoked: here the first call returns a snapshot with
overall false while the second call panics (db probe now succeeds and
`err().unwrap()` aborts), yielding no snapshot at all; on an actual cache hit
`InnerHealth::get` would return the constant `true`, not a verdict derived
from the cached data. -/
theorem c6_not_idempotent_within_ttl :
    InnerHealth.get 5000 ⟨cfgC6, ⟨0, []⟩⟩ outC6a =
      some ([("db", ⟨"db", true, false, "down"⟩),
             ("cache", ⟨"cache", false, false, "conn refused"⟩)], false) ∧
    InnerHealth.get 5500 ⟨cfgC6, ⟨0, []⟩⟩ outC6b = none :=
  ⟨by decide, by decide⟩

def nowOct2025 : Nat := 1760227200000000000

def cfgMaxTTL : HealthConfig :=
  { cache_duration := durationMax, timeout := 50, checkers := [⟨"db", true⟩] }

/-- C7 counterexample: with `cacheDuration = Duration::MAX` the first-ever
call is served from the never-written cache: the sentinel `UNIX_EPOCH`
timestamp's age is `now - 0` (finite, not infinite), it compares `≤` the TTL,
and `get` returns the empty initial map with overall `true` without running
the (failing) probe. -/
theorem c7_first_call_served_from_empty_cache :
    InnerHealth.get_from_cache nowOct2025 ⟨cfgMaxTTL, ⟨0, []⟩⟩ = some [] ∧
    InnerHealth.get nowOct2025 ⟨cfgMaxTTL, ⟨0, []⟩⟩
      (fun _ => Except.error ⟨"down"⟩) = some ([], true) :=
  ⟨by decide, by decide⟩

/-- C7 amended: on the first-ever query the cache read returns nothing and
the call runs the probes whenever `cacheDuration` is smaller than the time
elapsed since `UNIX_EPOCH` (true of every realistic TTL); the sentinel's age
is the finite `now - UNIX_EPOCH`, not infinite. -/
theorem c7_first_call_runs_probes (now : Nat) (cfg : Config)
    (outcomes : HealthChecker → ProbeOutcome)
    (h : cfg.health.cache_duration < now) :
    InnerHealth.get now (InnerHealth.new cfg) outcomes =
      get_health_and_cache_if_success cfg.health outcomes := by
  have hlt : ¬ (now ≤ cfg.health.cache_duration) := Nat.not_le.mpr h
  simp [InnerHealth.get, InnerHealth.get_from_cache, InnerHealth.new,
    duration_since, unwrapOrDurationMax, hlt]

def configW7 : Config :=
  { endpoints := [], env := "dev", name := "app", port := 8080, version := "1.0",
    health := { cache_duration := 10, timeout := 5, checkers := [⟨"db", true⟩] } }

def outDown : HealthChecker → ProbeOutcome := fun _ => Except.error ⟨"down"⟩

/-- Witness for C7's amended theorem at a concrete input. -/
theorem c7_first_call_runs_probes_witness :
    configW7.health.cache_duration < 100 ∧
    InnerHealth.get 100 (InnerHealth.new configW7) outDown =
      get_health_and_cache_if_success configW7.health outDown :=
  ⟨by decide, c7_first_call_runs_probes 100 configW7 outDown (by decide)⟩

def dupConfig : Config :=
  { endpoints := [], env := "dev", name := "app", port := 8080, version := "1.0",
    health := { cache_duration := 0, timeout := 0,
                checkers := [⟨"db", true⟩, ⟨"db", false⟩] } }

def emptyEnv : Env := fun _ => none

/-- C8 counterexample: a configuration with duplicate probe keys and zero
TTL/timeout is accepted: `Actuator::new` returns a fully-formed actuator
holding that configuration verbatim, and at query time the duplicate key
silently collapses last-wins (here dropping the mandatory "db" entry, so
overall is even true). No configuration error exists anywhere. -/
theorem c8_invalid_config_accepted :
    (Actuator.new 0 emptyEnv dupConfig).cfg = dupConfig ∧
    (Actuator.new 0 emptyEnv dupConfig).health = InnerHealth.new dupConfig ∧
    get_health_and_cache_if_success dupConfig.health
        (fun _ => Except.error ⟨"x"⟩) =
      some ([("db", ⟨"db", false, false, "x"⟩)], true) :=
  ⟨rfl, rfl, by decide⟩

/-- C8 amended: `Actuator::new` performs no validation and cannot fail: it
accepts every configuration, duplicate keys and non-positive durations
included, and stores it unchanged; configuration errors are raised neither at
construction nor at query time. -/
theorem c8_construction_never_fails (now : Nat) (e : Env) (cfg : Config) :
    (Actuator.new now e cfg).cfg = cfg ∧
    (Actuator.new now e cfg).health = InnerHealth.new cfg :=
  ⟨rfl, rfl⟩

/-- C9: each build/version-control metadata lookup returns the value of its
environment variable when the variable is set, and the empty string when it
is unset. -/
theorem c9_metadata_env_lookups (e : Env) (v : String) :
    (e "VERGEN_BUILD_TIMESTAMP" = some v → build_stamp e = v) ∧
    (e "VERGEN_BUILD_TIMESTAMP" = none → build_stamp e = "") ∧
    (e "VERGEN_GIT_COMMIT_TIMESTAMP" = some v → git_commit_stamp e = v) ∧
    (e "VERGEN_GIT_COMMIT_TIMESTAMP" = none → git_commit_stamp e = "") ∧
    (e "VERGEN_GIT_SHA" = some v → git_commit_id e = v) ∧
    (e "VERGEN_GIT_SHA" = none → git_commit_id e = "") ∧
    (e "VERGEN_GIT_BRANCH" = some v → git_branch e = v) ∧
    (e "VERGEN_GIT_BRANCH" = none → git_branch e = "") ∧
    (e "VERGEN_RUSTC_SEMVER" = some v → rustc_version e = v) ∧
    (e "VERGEN_RUSTC_SEMVER" = none → rustc_version e = "") ∧
    (e "VERGEN_CARGO_PROFILE" = some v → cargo_profile e = v) ∧
    (e "VERGEN_CARGO_PROFILE" = none → cargo_profile e = "") ∧
    (e "VERGEN_SYSINFO_OS_VERSION" = some v → os e = v) ∧
    (e "VERGEN_SYSINFO_OS_VERSION" = none → os e = "") ∧
    (e "VERGEN_SYSINFO_CPU_BRAND" = some v → cpu e = v) ∧
    (e "VERGEN_SYSINFO_CPU_BRAND" = none → cpu e = "") := by
  refine ⟨?_, ?_, ?_, ?_, ?_, ?_, ?_, ?_, ?_, ?_, ?_, ?_, ?_, ?_, ?_, ?_⟩ <;>
    · intro h
      simp [build_stamp, git_commit_stamp, git_commit_id, git_branch,
        rustc_version, cargo_profile, os, cpu, envVar, h]

def envW9 : Env := fun k => if k == "VERGEN_GIT_SHA" then some "abc123" else none

/-- Witness for C9 on a concrete environment where one variable is set and
another is unset. -/
theorem c9_metadata_env_lookups_witness :
    envW9 "VERGEN_GIT_SHA" = some "abc123" ∧
    git_commit_id envW9 = "abc123" ∧
    envW9 "VERGEN_BUILD_TIMESTAMP" = none ∧
    build_stamp envW9 = "" :=
  ⟨by decide,
   (c9_metadata_env_lookups envW9 "abc123").2.2.2.2.1 (by decide),
   by decide,
   (c9_metadata_env_lookups envW9 "abc123").2.1 (by decide)⟩

/-- C10 counterexample: a cached timestamp one nanosecond in the future with
`cacheDuration = Duration::MAX` is served from cache, not discarded: the
failed `duration_since` maps to age `Duration::MAX`, which still satisfies
`age ≤ cacheDuration`. -/
theorem c10_future_stamp_served_with_max_ttl :
    InnerHealth.get_from_cache 0
      ⟨{ cache_duration := durationMax, timeout := 50, checkers := [] },
        ⟨1, []⟩⟩ = some [] := by decide

/-- C10 amended: when the cached timestamp lies in the future the snapshot's
age is taken to be `Duration::MAX`, so the cache read returns nothing and the
call re-aggregates, provided `cacheDuration < Duration::MAX`. -/
theorem c10_future_stamp_forces_reaggregation (now : Nat) (s : InnerHealth)
    (outcomes : HealthChecker → ProbeOutcome)
    (h1 : now < s.health.last_check_stamp)
    (h2 : s.cfg.cache_duration < durationMax) :
    InnerHealth.get_from_cache now s = none ∧
    InnerHealth.get now s outcomes =
      get_health_and_cache_if_success s.cfg outcomes := by
  have hcache : InnerHealth.get_from_cache now s = none := by
    simp [InnerHealth.get_from_cache, duration_since, unwrapOrDurationMax,
      Nat.not_le.mpr h1, Nat.not_le.mpr h2]
  refine ⟨hcache, ?_⟩
  unfold InnerHealth.get
  rw [hcache]

def stateW10 : InnerHealth :=
  ⟨{ cache_duration := 0, timeout := 0, checkers := [] }, ⟨1, []⟩⟩

def outW10 : HealthChecker → ProbeOutcome := fun _ => Except.error ⟨"x"⟩

/-- Witness for C10's amended theorem at a concrete input. -/
theorem c10_future_stamp_forces_reaggregation_witness :
    0 < stateW10.health.last_check_stamp ∧
    stateW10.cfg.cache_duration < durationMax ∧
    (InnerHealth.get_from_cache 0 stateW10 = none ∧
      InnerHealth.get 0 stateW10 outW10 =
        get_health_and_cache_if_success stateW10.cfg outW10) :=
  ⟨by decide, by decide,
   c10_future_stamp_forces_reaggregation 0 stateW10 outW10 (by decide) (by decide)⟩

end RustActuator
